import Mathlib

/-!
Verification development for the chat-agent repository: a shallow embedding
of its chat session, prompt library, command resolution, persistence and
completion-client code, with theorems checking the specification's claims.

Source files embedded:
- src/components/chat.py        (command resolution, completion client, submit step)
- src/utils/mongodb_prompt_store.py  (prompt library, import/export)
- src/utils/message_store.py    (file-backed chat store)
- src/utils/mongodb_message_store.py (document-store chat store)
- src/main.py                   (session-state clearing on identity change)
-/

namespace ChatAgent

/-! ## Python string primitives used by the source -/

/-- Python `str.lower()` restricted to ASCII letters (the only case exercised
by the repository's titles and usernames); `Char.toLower` maps A-Z to a-z. -/
def py_lower (s : String) : String :=
  String.mk (s.data.map Char.toLower)

/-- Python `str.replace(old, new)` for a single-character pattern and
replacement: every occurrence of `old` is replaced. -/
def py_replace_char (old new : Char) (s : String) : String :=
  String.mk (s.data.map (fun c => if c == old then new else c))

/-- Python `s.startswith(pre)`. -/
def py_startswith (pre s : String) : Bool :=
  pre.data.isPrefixOf s.data

/-- Python `c in s` for a single character. -/
def py_contains_char (s : String) (c : Char) : Bool :=
  s.data.contains c

/-- Python slicing `s[n:]` (character counted, like Lean and Python). -/
def py_drop (s : String) (n : Nat) : String :=
  String.mk (s.data.drop n)

/-- Python whitespace characters stripped by `str.strip()`:
space, tab, newline, carriage return, vertical tab, form feed. -/
def py_isspace (c : Char) : Bool :=
  c == ' ' || c == '\t' || c == '\n' || c == '\r' ||
  c == Char.ofNat 11 || c == Char.ofNat 12

/-- Python `str.strip()`: drop leading and trailing whitespace. -/
def py_strip (s : String) : String :=
  String.mk (((s.data.dropWhile py_isspace).reverse.dropWhile py_isspace).reverse)

/-- Python `s.split(" ")[0]`: the prefix of `s` up to (not including) the
first space character, or all of `s` if it has no space. -/
def py_split_space_head (s : String) : String :=
  String.mk (s.data.takeWhile (fun c => c != ' '))

/-- Substring test on character lists (Python `needle in haystack` for
strings). -/
def listInfix : List Char → List Char → Bool
  | n, [] => n.isEmpty
  | n, c :: t => n.isPrefixOf (c :: t) || listInfix n t

/-! ## A JSON value model

`import_prompts_from_json` receives arbitrary parsed JSON, so the embedding
needs a JSON value type.  Numbers are modelled as integers (no claim involves
fractional values). -/

inductive Json where
  | null
  | bool (b : Bool)
  | num (n : Int)
  | str (s : String)
  | arr (xs : List Json)
  | obj (fields : List (String × Json))

mutual

/-- Python `str(x)` for our JSON fragment.  Scalar cases are exact
(`str`, `int`, `bool`, `None`).  Container cases render elements recursively;
Python would use `repr` for nested strings (adding quotes), which is not
modelled since no claim evaluates the stringification of a container. -/
def pyStr : Json → String
  | .null => "None"
  | .bool true => "True"
  | .bool false => "False"
  | .num n => toString n
  | .str s => s
  | .arr xs => "[" ++ String.intercalate ", " (pyStrList xs) ++ "]"
  | .obj fs => "\x7b" ++ String.intercalate ", " (pyStrFields fs) ++ "\x7d"

def pyStrList : List Json → List String
  | [] => []
  | j :: js => pyStr j :: pyStrList js

def pyStrFields : List (String × Json) → List String
  | [] => []
  | (k, v) :: fs => (k ++ ": " ++ pyStr v) :: pyStrFields fs

end

/-- Python runtime errors that the embedded code can raise. -/
inductive PyErr where
  | typeError
  | attributeError
  | keyError
deriving DecidableEq

/-- Python `for x in j`: arrays yield elements, strings yield one-character
strings, dicts yield their keys; other values raise `TypeError`. -/
def pyIter : Json → Except PyErr (List Json)
  | .arr xs => .ok xs
  | .str s => .ok (s.data.map (fun c => Json.str (String.mk [c])))
  | .obj fs => .ok (fs.map (fun f => Json.str f.1))
  | _ => .error .typeError

/-- Python `key in j` for a string `key`: dicts test key membership, strings
test substring containment, lists test element equality (a string key can only
equal a string element); other values raise `TypeError`. -/
def pyContains (key : String) : Json → Except PyErr Bool
  | .obj fs => .ok (fs.any (fun f => f.1 == key))
  | .str s => .ok (listInfix key.data s.data)
  | .arr xs => .ok (xs.any (fun j => match j with | .str t => t == key | _ => false))
  | _ => .error .typeError

/-- Python `j[key]` for a string `key`: dicts look the key up (raising
`KeyError` when absent); strings and lists require integer indices, so a
string subscript raises `TypeError`, as do scalars. -/
def pyGetItem (j : Json) (key : String) : Except PyErr Json :=
  match j with
  | .obj fs =>
      match fs.find? (fun f => f.1 == key) with
      | some f => .ok f.2
      | none => .error .keyError
  | _ => .error .typeError

/-- Python `len(j)`: length of arrays, strings (in characters) and dicts
(number of keys); other values raise `TypeError`. -/
def pyLen : Json → Except PyErr Nat
  | .arr xs => .ok xs.length
  | .str s => .ok s.length
  | .obj fs => .ok fs.length
  | _ => .error .typeError

/-! ## Prompt library (src/utils/mongodb_prompt_store.py)

The MongoDB `prompts` collection is modelled as a list of records in
insertion order; `update_one(query, update, upsert=True)` replaces the first
matching record or appends a new one.  `content` is kept as a JSON value
because import can store arbitrary JSON under `content`. -/

structure Prompt where
  title : String
  command : String
  content : Json
  last_updated : String

/-- MongoDB `update_one(query, update, upsert=True)`: replace the first
record matching the query, or append the new record when none matches. -/
def updateOneUpsert (p : α → Bool) (new : α) : List α → List α
  | [] => [new]
  | x :: xs => if p x then new :: xs else x :: updateOneUpsert p new xs

/-- `MongoDBPromptStore.save_prompt(title, content)`: derives the command
from the title (lowercase, spaces to dashes, `/` prefix), upserts the record
keyed by the command, and returns the command.  `now` stands for
`datetime.now().strftime(...)`. -/
def save_prompt (title : String) (content : Json) (now : String)
    (store : List Prompt) : String × List Prompt :=
  let command := "/" ++ py_replace_char ' ' '-' (py_lower title)
  (command,
   updateOneUpsert (fun p => p.command == command)
     ⟨title, command, content, now⟩ store)

/-- `MongoDBPromptStore.get_prompt_by_command(command)`: `find_one` on the
command key, i.e. the first matching record, if any. -/
def get_prompt_by_command (command : String) (store : List Prompt) : Option Prompt :=
  store.find? (fun p => p.command == command)

/-- The JSON object serialized for one prompt record by
`export_prompts_to_json` (the record with the storage-internal `_id`
removed). -/
def export_entry (p : Prompt) : Json :=
  .obj [("title", .str p.title), ("command", .str p.command),
        ("content", p.content), ("last_updated", .str p.last_updated)]

/-- `MongoDBPromptStore.export_prompts_to_json()`: `json.dumps` of all
records with the storage-internal `_id` removed.  The embedding works at the
JSON-value level: parsing the dumped string recovers exactly this value. -/
def export_prompts_to_json (store : List Prompt) : Json :=
  .arr (store.map export_entry)

/-- One iteration of the import loop: `if "title" in prompt and "content" in
prompt: self.save_prompt(prompt["title"], prompt["content"])`.  A non-string
title makes `title.lower()` inside `save_prompt` raise `AttributeError`. -/
def import_step (now : String) (st : List Prompt) (e : Json) :
    Except PyErr (List Prompt) := do
  let has_title ← pyContains "title" e
  let has_content ← pyContains "content" e
  if has_title && has_content then
    let tj ← pyGetItem e "title"
    let cj ← pyGetItem e "content"
    match tj with
    | .str t => pure (save_prompt t cj now st).2
    | _ => .error .attributeError
  else
    pure st

/-- `MongoDBPromptStore.import_prompts_from_json(json_str)`.  The payload is
the result of `json.loads`: `none` models a `JSONDecodeError` (the only
exception the source catches, returning 0); `some parsed` models a successful
parse, after which the source iterates over `parsed`, upserts qualifying
entries, and returns `len(parsed)`. -/
def import_prompts_from_json (payload : Option Json) (now : String)
    (store : List Prompt) : Except PyErr (Nat × List Prompt) :=
  match payload with
  | none => .ok (0, store)
  | some parsed => do
      let items ← pyIter parsed
      let st ← items.foldlM (import_step now) store
      let n ← pyLen parsed
      pure (n, st)

/-- A JSON array entry that triggers an upsert during import: an object with
both a `title` and a `content` key (`"title" in prompt and "content" in
prompt` on a dict). -/
def entry_qualifies : Json → Bool
  | .obj fs => fs.any (fun f => f.1 == "title") && fs.any (fun f => f.1 == "content")
  | _ => false

/-- An entry that the import loop processes without raising: an object whose
`title` value is a string whenever both required keys are present.  (A
non-object entry can raise `TypeError` on the membership test or the
subscript, and an object with a non-string title raises `AttributeError`
inside `save_prompt`.) -/
def entry_importable : Json → Bool
  | .obj fs =>
      (!(fs.any (fun f => f.1 == "title") && fs.any (fun f => f.1 == "content"))) ||
      (match fs.find? (fun f => f.1 == "title") with
       | some f => (match f.2 with | .str _ => true | _ => false)
       | none => false)
  | _ => false

/-- The value stored under `key` in a JSON object (the first binding),
defaulting to `null`; used only to state which record an import upserts. -/
def obj_field (key : String) : Json → Json
  | .obj fs => ((fs.find? (fun f => f.1 == key)).map (fun f => f.2)).getD .null
  | _ => .null

/-- The string form of an object's `title` field, defaulting to the empty
string; used only to state which record an import upserts. -/
def obj_title_str (e : Json) : String :=
  match obj_field "title" e with
  | .str s => s
  | _ => ""

/-- The `(command, content)` association of a prompt library: the claims
about import/export round-trips compare libraries by this projection. -/
def promptPairs (store : List Prompt) : List (String × Json) :=
  store.map (fun p => (p.command, p.content))

/-- The content stored under a command (first matching record). -/
def contentAt (command : String) (store : List Prompt) : Option Json :=
  (store.find? (fun p => p.command == command)).map (fun p => p.content)

/-! ## Command resolution (src/components/chat.py lines 296-313) -/

/-- The slash-command resolution step of `chat_interface`: input starting
with `/` whose head token matches a stored command is replaced by the stored
content, with any text after the command stripped and appended after a single
space (`f-string` with one space separator); otherwise the input passes
through unchanged. -/
def resolve_command (user_input : String) (store : List Prompt) : String :=
  if py_startswith "/" user_input then
    let command := py_split_space_head user_input
    match get_prompt_by_command command store with
    | some stored_prompt =>
        if py_contains_char user_input ' ' then
          let remaining_text := py_strip (py_drop user_input command.length)
          pyStr stored_prompt.content ++ " " ++ remaining_text
        else
          pyStr stored_prompt.content
    | none => user_input
  else
    user_input

/-! ## Timestamps

Both stores stamp sessions with `datetime.now().strftime("%Y-%m-%d %H:%M:%S")`.
The clock is a parameter; the formatter is embedded so that properties such as
non-emptiness of the produced timestamp are provable. -/

structure Tm where
  year : Nat
  month : Nat
  day : Nat
  hour : Nat
  minute : Nat
  second : Nat
deriving DecidableEq

/-- Zero-padded two-digit rendering (strftime `%m`, `%d`, `%H`, `%M`, `%S`). -/
def pad2 (n : Nat) : String :=
  if n < 10 then "0" ++ toString n else toString n

/-- Zero-padded four-digit rendering (strftime `%Y`). -/
def pad4 (n : Nat) : String :=
  if n < 10 then "000" ++ toString n
  else if n < 100 then "00" ++ toString n
  else if n < 1000 then "0" ++ toString n
  else toString n

/-- `datetime.strftime("%Y-%m-%d %H:%M:%S")`. -/
def strftime_ymd_hms (t : Tm) : String :=
  pad4 t.year ++ "-" ++ pad2 t.month ++ "-" ++ pad2 t.day ++ " " ++
  pad2 t.hour ++ ":" ++ pad2 t.minute ++ ":" ++ pad2 t.second

/-! ## Messages and chat sessions -/

structure Message where
  role : String
  content : String
  timestamp : String
  user : String
deriving DecidableEq

/-- The `{"messages": ..., "last_updated": ...}` dictionary stored per chat. -/
structure ChatData where
  messages : List Message
  last_updated : String
deriving DecidableEq

/-- Username normalization shared by both stores:
`user_name.lower().replace(" ", "_")`. -/
def safe_username (user_name : String) : String :=
  py_replace_char ' ' '_' (py_lower user_name)

/-- Python dict assignment `d[k] = v` on an insertion-ordered dictionary:
update the existing key in place, else append. -/
def dictInsert (k : String) (v : ChatData) :
    List (String × ChatData) → List (String × ChatData) :=
  updateOneUpsert (fun kv => kv.1 == k) (k, v)

/-! ## File-backed chat store (src/utils/message_store.py)

The filesystem is a map from file keys (one per normalized username) to a
file state: `absent` (no file), `corrupt` (present but `json.load` raises
`JSONDecodeError`), or `valid m` (parses to the chat dictionary `m`). -/

inductive FileState where
  | absent
  | corrupt
  | valid (chats : List (String × ChatData))

/-- `MessageStore.save_chat(user_name, chat_id, chat_data)`: read the user's
file (treating a missing or unparseable file as the empty dictionary), set
`chats[chat_id] = chat_data`, write the file back. -/
def ms_save_chat (user_name chat_id : String) (chat_data : ChatData)
    (fs : String → FileState) : String → FileState :=
  let key := safe_username user_name
  let chats := match fs key with
    | .valid m => m
    | _ => []
  let m := dictInsert chat_id chat_data chats
  fun k => if k = key then .valid m else fs k

/-- `MessageStore.load_all_chats(user_name)`: the parsed chat dictionary, or
empty when the file is missing or unreadable. -/
def ms_load_all_chats (user_name : String) (fs : String → FileState) :
    List (String × ChatData) :=
  match fs (safe_username user_name) with
  | .valid m => m
  | _ => []

/-- `MessageStore.load_chat(user_name, chat_id)`:
`all_chats.get(chat_id, {"messages": [], "last_updated": now})`. -/
def ms_load_chat (user_name chat_id : String) (fs : String → FileState)
    (t : Tm) : ChatData :=
  (List.lookup chat_id (ms_load_all_chats user_name fs)).getD
    ⟨[], strftime_ymd_hms t⟩

/-! ## Document-store chat store (src/utils/mongodb_message_store.py)

The `chats` collection is a list of documents, one per
`(user_name, chat_id)` pair. -/

structure ChatDoc where
  user_name : String
  chat_id : String
  messages : List Message
  last_updated : String
deriving DecidableEq

/-- `MongoDBMessageStore.save_chat`: `update_one` with upsert on the
`(user_name, chat_id)` key, `$set`-ting all four fields. -/
def mdb_save_chat (user_name chat_id : String) (chat_data : ChatData)
    (coll : List ChatDoc) : List ChatDoc :=
  let safe := safe_username user_name
  updateOneUpsert (fun d => d.user_name == safe && d.chat_id == chat_id)
    ⟨safe, chat_id, chat_data.messages, chat_data.last_updated⟩ coll

/-- `MongoDBMessageStore.load_all_chats`: all documents of the normalized
user, as a `chat_id -> data` mapping in cursor order. -/
def mdb_load_all_chats (user_name : String) (coll : List ChatDoc) :
    List (String × ChatData) :=
  (coll.filter (fun d => d.user_name == safe_username user_name)).map
    (fun d => (d.chat_id, ⟨d.messages, d.last_updated⟩))

/-- `MongoDBMessageStore.load_chat`: `find_one` on the
`(user_name, chat_id)` pair, defaulting to a fresh empty session. -/
def mdb_load_chat (user_name chat_id : String) (coll : List ChatDoc)
    (t : Tm) : ChatData :=
  match coll.find? (fun d =>
      d.user_name == safe_username user_name && d.chat_id == chat_id) with
  | some d => ⟨d.messages, d.last_updated⟩
  | none => ⟨[], strftime_ymd_hms t⟩

/-! ## Session state and identity change (src/main.py, src/components/chat.py)

`st.session_state` keys relevant to a chat session; `none` models an absent
key (deleted or never initialized). -/

structure SessionState where
  messages : Option (List Message)
  current_chat_id : Option (Option String)
  chat_history : Option (List (String × ChatData))
  selected_model : Option String
  admin_view : Option (Option String)
  show_command_dropdown : Option Bool
  input_value : Option String
  selected_command : Option (Option String)
deriving DecidableEq

/-- `main.clear_chat_session_state()`: deletes the keys `messages`,
`current_chat_id`, `chat_history`, `selected_model` and `admin_view` when
present.  It is invoked whenever the authentication status changes.  The
command-handling keys set by `chat_interface` are not touched. -/
def clear_chat_session_state (s : SessionState) : SessionState :=
  { s with
    messages := none
    current_chat_id := none
    chat_history := none
    selected_model := none
    admin_view := none }

/-! ## Completion client (src/components/chat.py, get_ollama_response) -/

/-- Outcome of the `requests.post` call to the completion endpoint:
a reply with an HTTP status code and the parsed `response` field (absent when
the body lacks it), a `requests.exceptions.ConnectionError`, or any other
exception carrying its message (this includes timeouts and bodies that fail
to parse as JSON). -/
inductive HttpOutcome where
  | reply (status_code : Nat) (response_field : Option String)
  | connection_error
  | other_failure (msg : String)

/-- The transcript-building loop of `get_ollama_response`: each prior message
is rendered as `"<Role>: <content>"` followed by a blank line, with role
`"user"` rendered as `User` and anything else as `Assistant`.  (The source
guards the loop with `if messages:`, which coincides with folding over the
empty list.) -/
def build_conversation_context (messages : List Message) : String :=
  messages.foldl
    (fun acc msg =>
      acc ++ (if msg.role == "user" then "User" else "Assistant") ++ ": " ++
        msg.content ++ "\n\n")
    ""

/-- `full_prompt = f"{conversation_context}User: {prompt}\n\nAssistant:"`. -/
def build_full_prompt (prompt : String) (messages : List Message) : String :=
  build_conversation_context messages ++ "User: " ++ prompt ++ "\n\nAssistant:"

/-- `get_ollama_response(prompt, messages, model)`: builds the full prompt,
posts it, and converts every outcome into a returned string.  `net` is the
network: it maps the model and the posted prompt to the outcome of the
request. -/
def get_ollama_response (prompt : String) (messages : List Message)
    (model : String) (net : String → String → HttpOutcome) : String :=
  match net model (build_full_prompt prompt messages) with
  | .reply code field =>
      if code = 200 then field.getD "No response generated"
      else "Error: Received status code " ++ toString code
  | .connection_error =>
      "Error: Cannot connect to Ollama. Make sure it's running on your system."
  | .other_failure msg => "Error: " ++ msg

/-- The message-submission step of `chat_interface` (lines 316-323): the
resolved prompt is appended to the in-memory message log as a user message
before the completion client is called with that same log. -/
def submit_user_message (prompt user_name timestamp : String)
    (messages : List Message) : List Message :=
  messages ++ [⟨"user", prompt, timestamp, user_name⟩]

/-! ## Concrete fixtures used by witnesses and counterexamples -/

/-- A library holding `/greet -> "Hello"` (the spec's example template). -/
def greetStore : List Prompt :=
  [⟨"Greet", "/greet", Json.str "Hello", "2024-01-01 00:00:00"⟩]

/-- A two-template library for the round-trip witness. -/
def roundTripStore : List Prompt :=
  [⟨"Greet", "/greet", Json.str "Hello", "2024-01-01 00:00:00"⟩,
   ⟨"Save Notes", "/save-notes", Json.str "Note:", "2024-01-02 00:00:00"⟩]

/-- An import payload with one complete entry and one entry lacking both
required fields. -/
def partialImportPayload : Json :=
  .arr [.obj [("title", .str "A"), ("content", .str "B")], .obj []]

/-- A chat session value for chat-store witnesses. -/
def sampleChat : ChatData :=
  ⟨[⟨"user", "hi", "2024-01-01 00:00:00", "Ann Lee"⟩], "2024-01-01 00:00:00"⟩

/-- A filesystem whose only file is a corrupt history for user key
`ann_lee`. -/
def corruptFs : String → FileState :=
  fun k => if k = "ann_lee" then .corrupt else .absent

/-- A one-document chat collection for user key `ann_lee`. -/
def sampleColl : List ChatDoc :=
  [⟨"ann_lee", "chat-1", [⟨"user", "hi", "2024-01-01 00:00:00", "Ann Lee"⟩],
    "2024-01-01 00:00:00"⟩]

/-- A session state as left by an admin who opened the command dropdown and
selected a command just before the identity change. -/
def leakedSession : SessionState :=
  ⟨some [⟨"user", "hi", "2024-01-01 00:00:00", "Ann Lee"⟩], some (some "chat-1"),
   some [], some "llama3", some none, some true, some "/",
   some (some "secret template")⟩

/-- A clock value for witnesses. -/
def t0 : Tm := ⟨2024, 3, 5, 7, 8, 9⟩

/-! ## Helper lemmas on `updateOneUpsert` and dictionaries -/

theorem updateOneUpsert_mem (p : α → Bool) (new : α) (l : List α) :
    new ∈ updateOneUpsert p new l := by
  induction l with
  | nil => simp [updateOneUpsert]
  | cons x xs ih =>
      by_cases h : p x = true <;> simp [updateOneUpsert, h, ih]

theorem updateOneUpsert_filter (q p : α → Bool) (new : α) (l : List α)
    (hnew : q new = false) (himp : ∀ x, p x = true → q x = false) :
    (updateOneUpsert p new l).filter q = l.filter q := by
  induction l with
  | nil => simp [updateOneUpsert, hnew]
  | cons x xs ih =>
      by_cases h : p x = true
      · simp [updateOneUpsert, h, hnew, himp x h]
      · simp only [updateOneUpsert, h, if_false]
        by_cases hq : q x = true <;> simp [hq, ih]

theorem updateOneUpsert_find?_other (q p : α → Bool) (new : α) (l : List α)
    (hnew : q new = false) (himp : ∀ x, p x = true → q x = false) :
    (updateOneUpsert p new l).find? q = l.find? q := by
  induction l with
  | nil => simp [updateOneUpsert, hnew]
  | cons x xs ih =>
      by_cases h : p x = true
      · simp [updateOneUpsert, h, hnew, himp x h, List.find?]
      · simp only [updateOneUpsert, h, if_false]
        by_cases hq : q x = true <;> simp [List.find?, hq, ih]

theorem updateOneUpsert_find?_self (p : α → Bool) (new : α) (l : List α)
    (hnew : p new = true) :
    (updateOneUpsert p new l).find? p = some new := by
  induction l with
  | nil => simp [updateOneUpsert, List.find?, hnew]
  | cons x xs ih =>
      by_cases h : p x = true
      · simp [updateOneUpsert, h, List.find?, hnew]
      · simp [updateOneUpsert, h, List.find?, ih]

theorem dictInsert_lookup_self (k : String) (v : ChatData)
    (m : List (String × ChatData)) :
    List.lookup k (dictInsert k v m) = some v := by
  induction m with
  | nil => simp [dictInsert, updateOneUpsert, List.lookup]
  | cons x xs ih =>
      by_cases h : x.1 = k
      · simp [dictInsert, updateOneUpsert, h, List.lookup]
      · have hb : (x.1 == k) = false := beq_eq_false_iff_ne.mpr h
        have hb2 : (k == x.1) = false :=
          beq_eq_false_iff_ne.mpr (fun hh => h hh.symm)
        simp only [dictInsert, updateOneUpsert, hb, if_false, List.lookup, hb2]
        simpa [dictInsert] using ih

theorem dictInsert_lookup_other (k k2 : String) (v : ChatData)
    (m : List (String × ChatData)) (hk : k2 ≠ k) :
    List.lookup k2 (dictInsert k v m) = List.lookup k2 m := by
  have hkb : (k2 == k) = false := beq_eq_false_iff_ne.mpr hk
  induction m with
  | nil => simp [dictInsert, updateOneUpsert, List.lookup, hkb]
  | cons x xs ih =>
      by_cases h : x.1 = k
      · have hb2 : (k2 == x.1) = false := by rw [h]; exact hkb
        simp [dictInsert, updateOneUpsert, h, List.lookup, hb2, hkb]
      · have hb : (x.1 == k) = false := beq_eq_false_iff_ne.mpr h
        by_cases h2 : k2 = x.1
        · simp [dictInsert, updateOneUpsert, hb, List.lookup, h2]
        · have hb2 : (k2 == x.1) = false := beq_eq_false_iff_ne.mpr h2
          simp only [dictInsert, updateOneUpsert, hb, if_false, List.lookup, hb2]
          simpa [dictInsert] using ih

/-! ## C1: command resolution -/

/-- C1 counterexample: for the input `"/greet "` — a found command followed
only by spaces — the claim says the result is exactly the template content
`"Hello"`, but the code takes the `" " in user_input` branch and produces
`"Hello "` with a trailing space (`f"{content} {''}"`). -/
theorem resolve_trailing_space_counterexample :
    resolve_command "/greet " greetStore = "Hello " ∧
    resolve_command "/greet " greetStore ≠ "Hello" := by
  constructor
  · rfl
  · decide

/-- C1 (amended): input not starting with `/` or with an unknown command
passes through unchanged; a found command with no space in the input yields
exactly the template content; a found command in an input containing a space
yields the content, a single space, and the text after the command trimmed of
surrounding whitespace — in particular a found command followed only by
spaces yields the content followed by one trailing space, not the content
exactly. -/
theorem resolve_command_cases (s : String) (store : List Prompt) :
    (py_startswith "/" s = false → resolve_command s store = s) ∧
    (py_startswith "/" s = true →
      get_prompt_by_command (py_split_space_head s) store = none →
      resolve_command s store = s) ∧
    (∀ p c, py_startswith "/" s = true →
      get_prompt_by_command (py_split_space_head s) store = some p →
      p.content = Json.str c →
      py_contains_char s ' ' = false →
      resolve_command s store = c) ∧
    (∀ p c, py_startswith "/" s = true →
      get_prompt_by_command (py_split_space_head s) store = some p →
      p.content = Json.str c →
      py_contains_char s ' ' = true →
      resolve_command s store =
        c ++ " " ++ py_strip (py_drop s (py_split_space_head s).length)) := by
  refine ⟨fun h => ?_, fun h hn => ?_, fun p c h hf hc hsp => ?_, fun p c h hf hc hsp => ?_⟩
  · simp [resolve_command, h]
  · simp [resolve_command, h, hn]
  · simp [resolve_command, h, hf, hsp, hc, pyStr]
  · simp [resolve_command, h, hf, hsp, hc, pyStr]

/-- C1 witness: the spec's own examples, plus the corrected trailing-space
case, obtained from `resolve_command_cases` at concrete inputs. -/
theorem resolve_command_cases_witness :
    resolve_command "plain text" greetStore = "plain text" ∧
    resolve_command "/unknown" greetStore = "/unknown" ∧
    resolve_command "/greet" greetStore = "Hello" ∧
    resolve_command "/greet there" greetStore =
      "Hello" ++ " " ++
        py_strip (py_drop "/greet there" (py_split_space_head "/greet there").length) ∧
    resolve_command "/greet " greetStore =
      "Hello" ++ " " ++
        py_strip (py_drop "/greet " (py_split_space_head "/greet ").length) :=
  ⟨(resolve_command_cases "plain text" greetStore).1 (by decide),
   (resolve_command_cases "/unknown" greetStore).2.1 (by decide) (by rfl),
   (resolve_command_cases "/greet" greetStore).2.2.1
     ⟨"Greet", "/greet", Json.str "Hello", "2024-01-01 00:00:00"⟩ "Hello"
     (by decide) (by rfl) (by rfl) (by decide),
   (resolve_command_cases "/greet there" greetStore).2.2.2
     ⟨"Greet", "/greet", Json.str "Hello", "2024-01-01 00:00:00"⟩ "Hello"
     (by decide) (by rfl) (by rfl) (by decide),
   (resolve_command_cases "/greet " greetStore).2.2.2
     ⟨"Greet", "/greet", Json.str "Hello", "2024-01-01 00:00:00"⟩ "Hello"
     (by decide) (by rfl) (by rfl) (by decide)⟩

/-! ## C2: completion client error handling -/

/-- C2: `get_ollama_response` is a total function into strings (it never
raises), and its result is determined by the outcome of the single HTTP
request: the `response` field on a 200 reply, the fallback literal when that
field is absent, an error string embedding the status code on a non-200
reply, the connectivity-guidance literal on a connection failure, and a
generic error string embedding the exception message otherwise. -/
theorem get_ollama_response_cases (prompt : String) (messages : List Message)
    (model : String) (net : String → String → HttpOutcome) :
    (∀ text, net model (build_full_prompt prompt messages) = .reply 200 (some text) →
      get_ollama_response prompt messages model net = text) ∧
    (net model (build_full_prompt prompt messages) = .reply 200 none →
      get_ollama_response prompt messages model net = "No response generated") ∧
    (∀ code field, code ≠ 200 →
      net model (build_full_prompt prompt messages) = .reply code field →
      get_ollama_response prompt messages model net =
        "Error: Received status code " ++ toString code) ∧
    (net model (build_full_prompt prompt messages) = .connection_error →
      get_ollama_response prompt messages model net =
        "Error: Cannot connect to Ollama. Make sure it's running on your system.") ∧
    (∀ msg, net model (build_full_prompt prompt messages) = .other_failure msg →
      get_ollama_response prompt messages model net = "Error: " ++ msg) := by
  refine ⟨fun text h => ?_, fun h => ?_, fun code field hc h => ?_, fun h => ?_,
    fun msg h => ?_⟩
  · simp [get_ollama_response, h]
  · simp [get_ollama_response, h]
  · simp [get_ollama_response, h, hc]
  · simp [get_ollama_response, h]
  · simp [get_ollama_response, h]

/-- C2 witness: each failure mode at a concrete network, obtained from
`get_ollama_response_cases`. -/
theorem get_ollama_response_cases_witness :
    get_ollama_response "hi" [] "llama3" (fun _ _ => .reply 200 (some "hello")) =
      "hello" ∧
    get_ollama_response "hi" [] "llama3" (fun _ _ => .reply 200 none) =
      "No response generated" ∧
    get_ollama_response "hi" [] "llama3" (fun _ _ => .reply 500 none) =
      "Error: Received status code " ++ toString 500 ∧
    get_ollama_response "hi" [] "llama3" (fun _ _ => .connection_error) =
      "Error: Cannot connect to Ollama. Make sure it's running on your system." ∧
    get_ollama_response "hi" [] "llama3" (fun _ _ => .other_failure "boom") =
      "Error: boom" :=
  ⟨(get_ollama_response_cases "hi" [] "llama3" _).1 "hello" rfl,
   (get_ollama_response_cases "hi" [] "llama3" _).2.1 rfl,
   (get_ollama_response_cases "hi" [] "llama3" _).2.2.1 500 none (by decide) rfl,
   (get_ollama_response_cases "hi" [] "llama3" _).2.2.2.1 rfl,
   (get_ollama_response_cases "hi" [] "llama3" _).2.2.2.2 "boom" rfl⟩

/-! ## C4: malformed import payloads -/

/-- C4 counterexample: the payload `5` is valid JSON but not an array of
objects; the claim says import reports zero items and no exception
propagates, but iterating an integer raises `TypeError`, which the source
does not catch (it only catches `json.JSONDecodeError`). -/
theorem import_non_array_raises_counterexample :
    import_prompts_from_json (some (Json.num 5)) "2024-01-01 00:00:00" [] =
      .error .typeError := rfl

/-- C4 (amended): for every payload that is not valid JSON at all
(`json.loads` raises `JSONDecodeError`), import returns 0 and no exception
propagates; valid-JSON payloads that are not arrays of objects are outside
this guarantee — they can raise `TypeError` (non-iterable payloads or
non-container entries) or return a nonzero count without importing
anything. -/
theorem import_invalid_json_returns_zero (now : String) (store : List Prompt) :
    import_prompts_from_json none now store = .ok (0, store) := rfl

/-! ## C6: session state on identity change -/

/-- C6 evidence: at an authentication-status change,
`clear_chat_session_state` deletes `messages`, `current_chat_id`,
`chat_history`, `selected_model` and `admin_view`, but leaves the pending
command UI flags — `show_command_dropdown`, `input_value` and
`selected_command` — exactly as the previous identity set them, contradicting
the claim (and the function's own docstring) that all chat-related session
state is cleared. -/
theorem clear_session_keeps_command_flags :
    (clear_chat_session_state leakedSession).messages = none ∧
    (clear_chat_session_state leakedSession).current_chat_id = none ∧
    (clear_chat_session_state leakedSession).chat_history = none ∧
    (clear_chat_session_state leakedSession).selected_model = none ∧
    (clear_chat_session_state leakedSession).admin_view = none ∧
    (clear_chat_session_state leakedSession).show_command_dropdown = some true ∧
    (clear_chat_session_state leakedSession).input_value = some "/" ∧
    (clear_chat_session_state leakedSession).selected_command =
      some (some "secret template") :=
  ⟨rfl, rfl, rfl, rfl, rfl, rfl, rfl, rfl⟩

/-! ## C8: command derivation -/

/-- C8: the command returned by `save_prompt` is `/` followed by the title
lowercased with every space replaced by a hyphen, and the upserted record
carries exactly this command. -/
theorem save_prompt_derived_command (title : String) (content : Json)
    (now : String) (store : List Prompt) :
    (save_prompt title content now store).1 =
      "/" ++ py_replace_char ' ' '-' (py_lower title) ∧
    (⟨title, "/" ++ py_replace_char ' ' '-' (py_lower title), content, now⟩ : Prompt) ∈
      (save_prompt title content now store).2 :=
  ⟨rfl, updateOneUpsert_mem _ _ store⟩

/-! ## C9: loadChat default for missing sessions -/

theorem strftime_ne_empty (t : Tm) : strftime_ymd_hms t ≠ "" := by
  intro h
  have hl := congrArg String.length h
  rw [strftime_ymd_hms] at hl
  simp only [String.length_append] at hl
  have hdash : ("-" : String).length = 1 := rfl
  have hsp : (" " : String).length = 1 := rfl
  have hcolon : (":" : String).length = 1 := rfl
  have hnil : ("" : String).length = 0 := rfl
  simp only [hdash, hsp, hcolon, hnil] at hl
  omega

/-- C9: in both stores, loading a chat id that is not present in the user's
stored history returns a fresh empty session — an empty message list and the
formatted current timestamp, which is never the empty string — instead of
raising a not-found error. -/
theorem load_chat_missing_default (user chat_id : String) (t : Tm) :
    (∀ fs : String → FileState,
      List.lookup chat_id (ms_load_all_chats user fs) = none →
      ms_load_chat user chat_id fs t = ⟨[], strftime_ymd_hms t⟩) ∧
    (∀ coll : List ChatDoc,
      coll.find? (fun d =>
        d.user_name == safe_username user && d.chat_id == chat_id) = none →
      mdb_load_chat user chat_id coll t = ⟨[], strftime_ymd_hms t⟩) ∧
    strftime_ymd_hms t ≠ "" := by
  refine ⟨fun fs h => ?_, fun coll h => ?_, strftime_ne_empty t⟩
  · simp [ms_load_chat, h]
  · simp [mdb_load_chat, h]

/-- C9 witness: a corrupt file store and a one-document collection, looked up
at an id neither contains, via `load_chat_missing_default`. -/
theorem load_chat_missing_default_witness :
    ms_load_chat "Ann Lee" "missing" corruptFs t0 = ⟨[], strftime_ymd_hms t0⟩ ∧
    mdb_load_chat "Ann Lee" "missing" sampleColl t0 = ⟨[], strftime_ymd_hms t0⟩ ∧
    strftime_ymd_hms t0 ≠ "" :=
  ⟨(load_chat_missing_default "Ann Lee" "missing" t0).1 corruptFs rfl,
   (load_chat_missing_default "Ann Lee" "missing" t0).2.1 sampleColl rfl,
   (load_chat_missing_default "Ann Lee" "missing" t0).2.2⟩

/-! ## C10: the submitted prompt appears twice in the posted transcript -/

theorem build_context_append (msgs : List Message) (m : Message) :
    build_conversation_context (msgs ++ [m]) =
      build_conversation_context msgs ++
        ((if m.role == "user" then "User" else "Assistant") ++ ": " ++
          m.content ++ "\n\n") := by
  simp [build_conversation_context, List.foldl_append, String.append_assoc]

/-- C10: on message submission the user message is appended to the log before
`get_ollama_response` is called with that log, so the transcript string the
completion client posts renders the resolved prompt twice — once as the last
rendered log entry and once as the final `User: ...\n\nAssistant:` cue. -/
theorem submitted_prompt_duplicated (prompt user_name timestamp : String)
    (messages : List Message) :
    build_full_prompt prompt (submit_user_message prompt user_name timestamp messages) =
      build_conversation_context messages ++
        ("User: " ++ prompt ++ "\n\n") ++ ("User: " ++ prompt ++ "\n\nAssistant:") := by
  rw [build_full_prompt, submit_user_message, build_context_append]
  simp only [String.append_assoc, beq_self_eq_true, if_true]
  rw [← String.append_assoc "User" ": "]
  rfl

/-! ## C5: saveChat frame property -/

/-- C5: in both stores, `save_chat` upserts the given chat under the given
user, leaves every other chat id of that user unchanged, and leaves every
user stored under a different normalized key unchanged.  The property is
stated observationally, through what the load operations return: in the
file-backed store a corrupt prior file already reads as an empty history,
and after the save every other id still reads as absent. -/
theorem save_chat_frame (user chat_id : String) (data : ChatData) :
    (∀ fs : String → FileState,
      (∀ other, safe_username other ≠ safe_username user →
        ms_load_all_chats other (ms_save_chat user chat_id data fs) =
          ms_load_all_chats other fs) ∧
      (∀ id2, id2 ≠ chat_id →
        List.lookup id2 (ms_load_all_chats user (ms_save_chat user chat_id data fs)) =
          List.lookup id2 (ms_load_all_chats user fs)) ∧
      List.lookup chat_id (ms_load_all_chats user (ms_save_chat user chat_id data fs)) =
        some data) ∧
    (∀ (coll : List ChatDoc) (t : Tm),
      (∀ other, safe_username other ≠ safe_username user →
        mdb_load_all_chats other (mdb_save_chat user chat_id data coll) =
          mdb_load_all_chats other coll) ∧
      (∀ id2, id2 ≠ chat_id →
        mdb_load_chat user id2 (mdb_save_chat user chat_id data coll) t =
          mdb_load_chat user id2 coll t) ∧
      mdb_load_chat user chat_id (mdb_save_chat user chat_id data coll) t =
        ⟨data.messages, data.last_updated⟩) := by
  constructor
  · intro fs
    refine ⟨fun other hother => ?_, fun id2 hid => ?_, ?_⟩
    · simp [ms_load_all_chats, ms_save_chat, hother]
    · cases hfs : fs (safe_username user) with
      | valid m =>
          simp [ms_load_all_chats, ms_save_chat, hfs,
                dictInsert_lookup_other chat_id id2 data m hid]
      | absent =>
          simp [ms_load_all_chats, ms_save_chat, hfs,
                dictInsert_lookup_other chat_id id2 data [] hid]
      | corrupt =>
          simp [ms_load_all_chats, ms_save_chat, hfs,
                dictInsert_lookup_other chat_id id2 data [] hid]
    · cases hfs : fs (safe_username user) <;>
        simp [ms_load_all_chats, ms_save_chat, hfs, dictInsert_lookup_self]
  · intro coll t
    refine ⟨fun other hother => ?_, fun id2 hid => ?_, ?_⟩
    · have hnew : ((⟨safe_username user, chat_id, data.messages, data.last_updated⟩ :
          ChatDoc).user_name == safe_username other) = false :=
        beq_eq_false_iff_ne.mpr (fun hh => hother (hh.symm))
      have himp : ∀ d : ChatDoc,
          (d.user_name == safe_username user && d.chat_id == chat_id) = true →
          (d.user_name == safe_username other) = false := by
        intro d hd
        have h1 : d.user_name = safe_username user :=
          eq_of_beq (Bool.and_elim_left hd)
        exact beq_eq_false_iff_ne.mpr (fun hh => hother ((h1 ▸ hh).symm))
      simp only [mdb_load_all_chats, mdb_save_chat]
      rw [updateOneUpsert_filter _ _ _ coll hnew himp]
    · have hnew : ((fun d : ChatDoc =>
          d.user_name == safe_username user && d.chat_id == id2)
            ⟨safe_username user, chat_id, data.messages, data.last_updated⟩) = false := by
        have : (chat_id == id2) = false :=
          beq_eq_false_iff_ne.mpr (fun hh => hid (hh.symm))
        simp [this]
      have himp : ∀ d : ChatDoc,
          (d.user_name == safe_username user && d.chat_id == chat_id) = true →
          (d.user_name == safe_username user && d.chat_id == id2) = false := by
        intro d hd
        have h1 : d.chat_id = chat_id := eq_of_beq (Bool.and_elim_right hd)
        have : (d.chat_id == id2) = false :=
          beq_eq_false_iff_ne.mpr (fun hh => hid ((h1 ▸ hh).symm))
        simp [this]
      simp only [mdb_load_chat, mdb_save_chat]
      rw [updateOneUpsert_find?_other _ _ _ coll hnew himp]
    · have hnew : ((fun d : ChatDoc =>
          d.user_name == safe_username user && d.chat_id == chat_id)
            ⟨safe_username user, chat_id, data.messages, data.last_updated⟩) = true := by
        simp
      simp only [mdb_load_chat, mdb_save_chat]
      rw [updateOneUpsert_find?_self _ _ coll hnew]

/-- C5 witness: saving under `Ann Lee` over a corrupt file store and a
one-document collection leaves user key `bob` and chat id `chat-1`
untouched, via `save_chat_frame`. -/
theorem save_chat_frame_witness :
    ms_load_all_chats "bob" (ms_save_chat "Ann Lee" "c9" sampleChat corruptFs) =
      ms_load_all_chats "bob" corruptFs ∧
    List.lookup "chat-1"
        (ms_load_all_chats "Ann Lee" (ms_save_chat "Ann Lee" "c9" sampleChat corruptFs)) =
      List.lookup "chat-1" (ms_load_all_chats "Ann Lee" corruptFs) ∧
    List.lookup "c9"
        (ms_load_all_chats "Ann Lee" (ms_save_chat "Ann Lee" "c9" sampleChat corruptFs)) =
      some sampleChat ∧
    mdb_load_all_chats "bob" (mdb_save_chat "Ann Lee" "c9" sampleChat sampleColl) =
      mdb_load_all_chats "bob" sampleColl ∧
    mdb_load_chat "Ann Lee" "chat-1" (mdb_save_chat "Ann Lee" "c9" sampleChat sampleColl) t0 =
      mdb_load_chat "Ann Lee" "chat-1" sampleColl t0 ∧
    mdb_load_chat "Ann Lee" "c9" (mdb_save_chat "Ann Lee" "c9" sampleChat sampleColl) t0 =
      ⟨sampleChat.messages, sampleChat.last_updated⟩ :=
  ⟨((save_chat_frame "Ann Lee" "c9" sampleChat).1 corruptFs).1 "bob" (by decide),
   ((save_chat_frame "Ann Lee" "c9" sampleChat).1 corruptFs).2.1 "chat-1" (by decide),
   ((save_chat_frame "Ann Lee" "c9" sampleChat).1 corruptFs).2.2,
   ((save_chat_frame "Ann Lee" "c9" sampleChat).2 sampleColl t0).1 "bob" (by decide),
   ((save_chat_frame "Ann Lee" "c9" sampleChat).2 sampleColl t0).2.1 "chat-1" (by decide),
   ((save_chat_frame "Ann Lee" "c9" sampleChat).2 sampleColl t0).2.2⟩

/-! ## Shared lemmas about the import loop -/

theorem foldlM_eq_foldl {E S α : Type} (f : S → α → Except E S) (g : S → α → S)
    (L : List α) (h : ∀ s a, a ∈ L → f s a = .ok (g s a)) :
    ∀ s, L.foldlM f s = .ok (L.foldl g s) := by
  induction L with
  | nil => intro s; rfl
  | cons x xs ih =>
      intro s
      have hx := h s x (List.mem_cons_self x xs)
      simp only [List.foldlM, List.foldl, hx]
      exact ih (fun s2 a ha => h s2 a (List.mem_cons_of_mem x ha)) (g s x)

theorem import_step_importable (now : String) (st : List Prompt) (e : Json)
    (h : entry_importable e = true) :
    import_step now st e = .ok (if entry_qualifies e then
      (save_prompt (obj_title_str e) (obj_field "content" e) now st).2 else st) := by
  cases e with
  | null => simp [entry_importable] at h
  | bool b => simp [entry_importable] at h
  | num n => simp [entry_importable] at h
  | str s => simp [entry_importable] at h
  | arr xs => simp [entry_importable] at h
  | obj fs =>
      by_cases hq : (fs.any (fun f => f.1 == "title") &&
          fs.any (fun f => f.1 == "content")) = true
      · have hA : fs.any (fun f => f.1 == "title") = true :=
          (Bool.and_eq_true _ _).mp hq |>.1
        have hB : fs.any (fun f => f.1 == "content") = true :=
          (Bool.and_eq_true _ _).mp hq |>.2
        cases hft : fs.find? (fun f => f.1 == "title") with
        | none =>
            exfalso
            rw [List.find?_eq_none] at hft
            rcases List.any_eq_true.mp hA with ⟨f, hf, hpf⟩
            exact hft f hf hpf
        | some f0 =>
            cases hfc : fs.find? (fun f => f.1 == "content") with
            | none =>
                exfalso
                rw [List.find?_eq_none] at hfc
                rcases List.any_eq_true.mp hB with ⟨g, hg, hpg⟩
                exact hfc g hg hpg
            | some g0 =>
                have himp : (match f0.2 with | Json.str _ => true | _ => false) = true := by
                  simpa [entry_importable, hq, hft] using h
                cases hf2 : f0.2 with
                | str t =>
                    simp [import_step, pyContains, hq, hA, hB, pyGetItem, hft, hfc, hf2,
                          entry_qualifies, obj_title_str, obj_field,
                          Bind.bind, Except.bind, Pure.pure, Except.pure]
                | null => rw [hf2] at himp; simp at himp
                | bool b => rw [hf2] at himp; simp at himp
                | num n => rw [hf2] at himp; simp at himp
                | arr xs => rw [hf2] at himp; simp at himp
                | obj gs => rw [hf2] at himp; simp at himp
      · have hq' : (fs.any (fun f => f.1 == "title") &&
            fs.any (fun f => f.1 == "content")) = false := by
          rw [Bool.not_eq_true] at hq
          exact hq
        simp [import_step, pyContains, hq', entry_qualifies,
              Bind.bind, Except.bind, Pure.pure, Except.pure]

/-- The import loop on an array of importable entries: never raises, returns
the array length as the count, and upserts exactly the qualifying entries. -/
theorem import_arr_eq_foldl (entries : List Json) (now : String)
    (store : List Prompt) (h : ∀ e ∈ entries, entry_importable e = true) :
    import_prompts_from_json (some (.arr entries)) now store =
      .ok (entries.length,
        entries.foldl (fun st e =>
          if entry_qualifies e then
            (save_prompt (obj_title_str e) (obj_field "content" e) now st).2
          else st) store) := by
  have hf := foldlM_eq_foldl (import_step now)
    (fun st e =>
      if entry_qualifies e then
        (save_prompt (obj_title_str e) (obj_field "content" e) now st).2
      else st)
    entries (fun st e he => import_step_importable now st e (h e he)) store
  simp [import_prompts_from_json, pyIter, pyLen, hf,
        Bind.bind, Except.bind, Pure.pure, Except.pure]

/-! ## C3: import count -/

/-- C3 counterexample: a payload with two entries, one complete and one
lacking both required fields, imports exactly one template but returns 2 —
the total entry count, not the number imported (which would be 1). -/
theorem import_count_counterexample :
    import_prompts_from_json (some partialImportPayload) "2024-01-01 00:00:00" [] =
      .ok (2, [⟨"A", "/a", Json.str "B", "2024-01-01 00:00:00"⟩]) ∧
    (2 : Nat) ≠ 1 := ⟨rfl, by decide⟩

/-- C3 (amended): for a well-formed JSON-array payload of importable entries
(objects whose `title` value is a string whenever both required keys are
present), import returns the TOTAL number of entries in the array, not the
number imported; an entry is upserted if and only if it is an object
containing at least `title` and `content`, and entries lacking either key are
skipped but still counted in the returned value. -/
theorem import_returns_total_length (entries : List Json) (now : String)
    (store : List Prompt) (h : ∀ e ∈ entries, entry_importable e = true) :
    import_prompts_from_json (some (.arr entries)) now store =
      .ok (entries.length,
        entries.foldl (fun st e =>
          if entry_qualifies e then
            (save_prompt (obj_title_str e) (obj_field "content" e) now st).2
          else st) store) :=
  import_arr_eq_foldl entries now store h

/-- C3 witness: the two-entry payload, via `import_returns_total_length`. -/
theorem import_returns_total_length_witness :
    import_prompts_from_json
        (some (.arr [.obj [("title", Json.str "A"), ("content", Json.str "B")], .obj []]))
        "2024-01-01 00:00:00" [] =
      .ok ([Json.obj [("title", Json.str "A"), ("content", Json.str "B")],
            Json.obj []].length,
        [Json.obj [("title", Json.str "A"), ("content", Json.str "B")],
         Json.obj []].foldl (fun st e =>
          if entry_qualifies e then
            (save_prompt (obj_title_str e) (obj_field "content" e)
              "2024-01-01 00:00:00" st).2
          else st) []) :=
  import_returns_total_length
    [.obj [("title", Json.str "A"), ("content", Json.str "B")], .obj []]
    "2024-01-01 00:00:00" []
    (by intro e he; fin_cases he <;> rfl)

/-! ## C7: import of export leaves the library unchanged -/

theorem contentAt_pairs (c : String) (T : List Prompt) :
    contentAt c T = ((promptPairs T).find? (fun q => q.1 == c)).map Prod.snd := by
  induction T with
  | nil => rfl
  | cons p ps ih =>
      by_cases h : (p.command == c) = true
      · simp [contentAt, promptPairs, List.find?, h]
      · have hb : (p.command == c) = false := by rw [Bool.not_eq_true] at h; exact h
        simpa [contentAt, promptPairs, List.find?, hb] using ih

theorem contentAt_eq_of_pairs {T1 T2 : List Prompt} (c : String)
    (h : promptPairs T1 = promptPairs T2) : contentAt c T1 = contentAt c T2 := by
  rw [contentAt_pairs, contentAt_pairs, h]

theorem upsert_preserve_pairs (key : String) (new : Prompt) (T : List Prompt)
    (hk : new.command = key) (hc : contentAt key T = some new.content) :
    promptPairs (updateOneUpsert (fun p => p.command == key) new T) = promptPairs T := by
  induction T with
  | nil => simp [contentAt, List.find?] at hc
  | cons q qs ih =>
      by_cases h : (q.command == key) = true
      · have hfq : contentAt key (q :: qs) = some q.content := by
          simp [contentAt, List.find?, h]
        rw [hfq] at hc
        have hqc : q.content = new.content := Option.some.inj hc
        have hqcmd : q.command = key := eq_of_beq h
        simp [updateOneUpsert, h, promptPairs, hk, hqcmd, hqc]
      · have hb : (q.command == key) = false := by rw [Bool.not_eq_true] at h; exact h
        have hc' : contentAt key qs = some new.content := by
          simpa [contentAt, List.find?, hb] using hc
        have hih := ih hc'
        simp only [updateOneUpsert, hb, Bool.false_eq_true, if_false]
        simp only [promptPairs, List.map_cons] at hih ⊢
        rw [hih]

theorem find?_self_of_nodup :
    ∀ (S : List Prompt), (S.map (fun p => p.command)).Nodup → ∀ p ∈ S,
      S.find? (fun q => q.command == p.command) = some p := by
  intro S
  induction S with
  | nil => intro _ p hp; cases hp
  | cons q qs ih =>
      intro hnd p hp
      rcases List.mem_cons.mp hp with rfl | hp2
      · simp [List.find?]
      · have hqp : q.command ≠ p.command := by
          intro he
          have hmem : p.command ∈ qs.map (fun r => r.command) :=
            List.mem_map_of_mem _ hp2
          exact (List.nodup_cons.mp hnd).1 (by simpa [he] using hmem)
        have hb : (q.command == p.command) = false := beq_eq_false_iff_ne.mpr hqp
        simp only [List.find?, hb]
        exact ih (List.nodup_cons.mp hnd).2 p hp2

theorem contentAt_self (S : List Prompt)
    (hnd : (S.map (fun p => p.command)).Nodup) (p : Prompt) (hp : p ∈ S) :
    contentAt p.command S = some p.content := by
  rw [contentAt, find?_self_of_nodup S hnd p hp]
  rfl

theorem save_fold_preserves_pairs (now : String) :
    ∀ (L T : List Prompt),
    (∀ p ∈ L, p.command = "/" ++ py_replace_char ' ' '-' (py_lower p.title)) →
    (∀ p ∈ L, contentAt p.command T = some p.content) →
    promptPairs (L.foldl (fun T2 p => (save_prompt p.title p.content now T2).2) T) =
      promptPairs T := by
  intro L
  induction L with
  | nil => intro T h1 h2; rfl
  | cons p L2 ih =>
      intro T h1 h2
      simp only [List.foldl_cons]
      have hcmd := h1 p (List.mem_cons_self p L2)
      have hct := h2 p (List.mem_cons_self p L2)
      have hT2 : promptPairs ((save_prompt p.title p.content now T).2) = promptPairs T := by
        have hsp : (save_prompt p.title p.content now T).2 =
            updateOneUpsert
              (fun q => q.command == ("/" ++ py_replace_char ' ' '-' (py_lower p.title)))
              ⟨p.title, "/" ++ py_replace_char ' ' '-' (py_lower p.title), p.content, now⟩
              T := rfl
        rw [hsp, ← hcmd]
        exact upsert_preserve_pairs p.command ⟨p.title, p.command, p.content, now⟩ T rfl hct
      have hh1 : ∀ q ∈ L2, q.command = "/" ++ py_replace_char ' ' '-' (py_lower q.title) :=
        fun q hq => h1 q (List.mem_cons_of_mem p hq)
      have hh2 : ∀ q ∈ L2,
          contentAt q.command ((save_prompt p.title p.content now T).2) = some q.content := by
        intro q hq
        rw [contentAt_eq_of_pairs q.command hT2]
        exact h2 q (List.mem_cons_of_mem p hq)
      rw [ih _ hh1 hh2, hT2]

/-- C7: importing the export of a non-empty library (whose records are
keyed by distinct commands, each derived from its title — the invariant
every record written through `save_prompt` satisfies) succeeds, returns the
number of records, and leaves the library contents unchanged: the stored
`(command, content)` pairs are exactly the same before and after (only
`last_updated` is refreshed). -/
theorem import_export_roundtrip (S : List Prompt) (now : String)
    (_hne : S ≠ [])
    (hnodup : (S.map (fun p => p.command)).Nodup)
    (hinv : ∀ p ∈ S, p.command = "/" ++ py_replace_char ' ' '-' (py_lower p.title)) :
    ∃ S2,
      import_prompts_from_json (some (export_prompts_to_json S)) now S =
        .ok (S.length, S2) ∧
      promptPairs S2 = promptPairs S := by
  have himp : ∀ e ∈ S.map export_entry, entry_importable e = true := by
    intro e he
    rcases List.mem_map.mp he with ⟨p, hp, rfl⟩
    rfl
  have h1 := import_arr_eq_foldl (S.map export_entry) now S himp
  refine ⟨S.foldl (fun T2 p => (save_prompt p.title p.content now T2).2) S, ?_, ?_⟩
  · rw [export_prompts_to_json, h1]
    simp only [List.length_map, List.foldl_map]
    rfl
  · exact save_fold_preserves_pairs now S S hinv
      (fun p hp => contentAt_self S hnodup p hp)

/-- C7 witness: the two-template library round-trips, via
`import_export_roundtrip`. -/
theorem import_export_roundtrip_witness :
    ∃ S2,
      import_prompts_from_json (some (export_prompts_to_json roundTripStore))
          "2024-02-01 00:00:00" roundTripStore =
        .ok (roundTripStore.length, S2) ∧
      promptPairs S2 = promptPairs roundTripStore :=
  import_export_roundtrip roundTripStore "2024-02-01 00:00:00"
    (by simp [roundTripStore]) (by decide) (by decide)

end ChatAgent
